import Mathlib

/-!
Verification of the query-validation and safe-execution gate of `server.py`
(a small MCP server exposing read-only SQL tooling over a Pagila database).

The Python source is shallowly embedded: caller-supplied query strings are
`List Char`; the database driver (asyncpg) is an oracle `Db` saying how the
connection attempt, the session directive and the fetch behave; each exposed
operation becomes a pure function from its oracle (and query) to an
`Effects` record holding the returned value (or the propagated exception),
the security-log entries appended, and the trace of connection events.
-/

namespace Pagila

/-- Characters stripped by Python's `str.strip()` (ASCII whitespace). -/
def isPySpace (c : Char) : Bool :=
  c = ' ' || c = '\t' || c = '\n' || c = '\r' || c = '\x0b' || c = '\x0c'

/-- Embedding of Python `str.upper()` (per-character uppercasing). -/
def pyUpper (s : List Char) : List Char :=
  s.map Char.toUpper

/-- Embedding of Python `str.strip()`: drop whitespace from both ends. -/
def pyStrip (s : List Char) : List Char :=
  (((s.dropWhile isPySpace).reverse.dropWhile isPySpace)).reverse

/-- Embedding of Python `sep.join(parts)`. -/
def pyJoin (sep : List Char) (parts : List (List Char)) : List Char :=
  (parts.intersperse sep).flatten

/-- The fixed forbidden-word list of `server.py` line 15. -/
def PALABRAS_PROHIBIDAS : List (List Char) :=
  ["DROP".data, "DELETE".data, "UPDATE".data, "TRUNCATE".data,
   "ALTER".data, "GRANT".data, "INSERT".data]

/-- The line appended to `alertas_seguridad.log` by
`registrar_alerta_seguridad(query, motivo)` at time `timestamp`
(source lines 17-21). -/
def registrar_alerta_seguridad (timestamp query motivo : List Char) : List Char :=
  "⚠️ [".data ++ timestamp ++ "] [BLOQUEADO] Motivo: ".data ++ motivo
    ++ " | Query: ".data ++ query ++ "\n".data

/-- Result of the validation section of `run_select_query`
(source lines 54-68), the spec's Query Validation Gate. -/
inductive ValidationOutcome
  | allowed
  | rejectedNotSelect
  | rejectedForbidden (palabra : List Char)
  | rejectedMulti
  deriving DecidableEq

/-- The gate of `run_select_query` (source lines 54-68): uppercase and trim,
require a `SELECT` prefix, scan the normalized text for the first forbidden
word (substring containment, in list order), then look for a `;` anywhere
before the last character of the trimmed original text. -/
def validate (query : List Char) : ValidationOutcome :=
  if ¬ ("SELECT".data <+: pyStrip (pyUpper query)) then
    .rejectedNotSelect
  else
    match PALABRAS_PROHIBIDAS.find?
        (fun palabra => decide (palabra <:+: pyStrip (pyUpper query))) with
    | some palabra => .rejectedForbidden palabra
    | none =>
      if ';' ∈ (pyStrip query).dropLast then .rejectedMulti else .allowed

/-- Outcome of `asyncpg.connect` in `get_db_connection` (source lines 24-31). -/
inductive ConnectOutcome
  | ok
  | fail (msg : List Char)
  deriving DecidableEq

/-- Outcome of one driver call that returns no rows (`conn.execute`). -/
inductive StepOutcome
  | ok
  | pgErr (msg : List Char)
  | sysErr (msg : List Char)
  deriving DecidableEq

/-- A fetched record: ordered association of column name to rendered value. -/
def Row : Type := List (List Char × List Char)

instance : DecidableEq Row := by
  unfold Row
  infer_instance

/-- Outcome of `conn.fetch`: rows, a driver (`asyncpg.PostgresError`)
failure, or any other raised error. -/
inductive FetchOutcome
  | ok (rows : List Row)
  | pgErr (msg : List Char)
  | sysErr (msg : List Char)
  deriving DecidableEq

/-- Database oracle for one invocation: how connecting, the read-only
directive and the fetch behave. -/
structure Db where
  connect : ConnectOutcome
  setReadOnly : StepOutcome
  fetch : FetchOutcome
  deriving DecidableEq

/-- A Python exception class propagating out of an operation. -/
inductive PyExc
  | connErr (msg : List Char)
  | pgExc (msg : List Char)
  | otherExc (msg : List Char)
  deriving DecidableEq

/-- What an operation hands back to the MCP framework: a returned string,
or a raised, uncaught exception. -/
inductive OpResult
  | strRet (s : List Char)
  | raised (e : PyExc)
  deriving DecidableEq

/-- Connection-level events of one invocation, in order. -/
inductive Event
  | openConn
  | closeConn
  | execSQL (sql : List Char)
  | fetchSQL (sql : List Char)
  deriving DecidableEq

/-- Observable behaviour of one operation call: result, appended security-log
entries (query, motivo), and the connection-event trace. -/
structure Effects where
  ret : OpResult
  log : List (List Char × List Char)
  events : List Event
  deriving DecidableEq

def SEC_NOT_SELECT : List Char :=
  "ERROR DE SEGURIDAD: Solo se permiten consultas SELECT.".data

def SEC_FORBIDDEN (palabra : List Char) : List Char :=
  "ERROR DE SEGURIDAD: Uso prohibido de \x27".data ++ palabra ++ "\x27.".data

def SEC_MULTI : List Char :=
  "ERROR DE SEGURIDAD: No se permiten múltiples sentencias.".data

def MOTIVO_NOT_SELECT : List Char :=
  "COMANDO NO AUTORIZADO (No empezó con SELECT)".data

def MOTIVO_FORBIDDEN (palabra : List Char) : List Char :=
  "PALABRA PROHIBIDA DETECTADA: ".data ++ palabra

def MOTIVO_MULTI : List Char :=
  "INTENTO DE MULTI-QUERY (Inyección)".data

def MOTIVO_DB (e : List Char) : List Char :=
  "ERROR DB: ".data ++ e

def DB_ERROR (e : List Char) : List Char :=
  "ERROR DE BASE DE DATOS: ".data ++ e

def SYS_ERROR (e : List Char) : List Char :=
  "ERROR DEL SISTEMA: ".data ++ e

/-- The session directive issued before every caller query (source line 74). -/
def READ_ONLY_SQL : List Char :=
  "SET SESSION CHARACTERISTICS AS TRANSACTION READ ONLY".data

/-- Tabular rendering of a fetched result set (source lines 77-89). -/
def renderRows (rows : List Row) : List Char :=
  match rows with
  | [] => "La consulta no devolvió resultados.".data
  | r0 :: _ =>
    "Resultados (".data ++ (Nat.repr rows.length).data ++ " filas):\n".data
      ++ pyJoin " | ".data (r0.map Prod.fst) ++ "\n".data
      ++ List.replicate 50 '-' ++ "\n".data
      ++ (rows.map (fun r => pyJoin " | ".data (r.map Prod.snd) ++ "\n".data)).flatten

/-- Embedding of `run_select_query(query)` (source lines 51-97). Validation
happens before any connection is opened; each rejection logs one alert and
returns a security-error string. On the allowed path the connection is
opened, the read-only directive runs first, then the caller's raw query;
`asyncpg.PostgresError` is logged and reported as a database error, any
other exception is reported as a system error without logging, and the
`finally` block closes the connection on every post-open path. An exception
from `get_db_connection` itself (line 71, outside the `try`) propagates. -/
def run_select_query (db : Db) (query : List Char) : Effects :=
  match validate query with
  | .rejectedNotSelect =>
    { ret := .strRet SEC_NOT_SELECT,
      log := [(query, MOTIVO_NOT_SELECT)], events := [] }
  | .rejectedForbidden palabra =>
    { ret := .strRet (SEC_FORBIDDEN palabra),
      log := [(query, MOTIVO_FORBIDDEN palabra)], events := [] }
  | .rejectedMulti =>
    { ret := .strRet SEC_MULTI,
      log := [(query, MOTIVO_MULTI)], events := [] }
  | .allowed =>
    match db.connect with
    | .fail msg => { ret := .raised (.connErr msg), log := [], events := [] }
    | .ok =>
      match db.setReadOnly with
      | .pgErr msg =>
        { ret := .strRet (DB_ERROR msg),
          log := [(query, MOTIVO_DB msg)],
          events := [.openConn, .execSQL READ_ONLY_SQL, .closeConn] }
      | .sysErr msg =>
        { ret := .strRet (SYS_ERROR msg),
          log := [],
          events := [.openConn, .execSQL READ_ONLY_SQL, .closeConn] }
      | .ok =>
        match db.fetch with
        | .pgErr msg =>
          { ret := .strRet (DB_ERROR msg),
            log := [(query, MOTIVO_DB msg)],
            events := [.openConn, .execSQL READ_ONLY_SQL,
                       .fetchSQL query, .closeConn] }
        | .sysErr msg =>
          { ret := .strRet (SYS_ERROR msg),
            log := [],
            events := [.openConn, .execSQL READ_ONLY_SQL,
                       .fetchSQL query, .closeConn] }
        | .ok rows =>
          { ret := .strRet (renderRows rows),
            log := [],
            events := [.openConn, .execSQL READ_ONLY_SQL,
                       .fetchSQL query, .closeConn] }

/-- The fixed query of `list_tables` (source lines 38-43). -/
def LIST_TABLES_SQL : List Char :=
  "\n        SELECT table_name \n        FROM information_schema.tables \n        WHERE table_schema = \x27public\x27 \n        ORDER BY table_name;\n        ".data

/-- Embedding of the comprehension `[row[\x27table_name\x27] for row in rows]`
(source line 45): the column value of every row, or `none` when some row
lacks the column (Python would raise a `KeyError`). -/
def lookupTableNames : List Row → Option (List (List Char))
  | [] => some []
  | r :: rest =>
    match r.lookup "table_name".data with
    | none => none
    | some v =>
      match lookupTableNames rest with
      | none => none
      | some vs => some (v :: vs)

/-- Embedding of `list_tables()` (source lines 33-49): no gate, a bare
`try`/`finally` (no `except`), so every fetch failure propagates after the
connection is closed; a connection failure propagates before any event. -/
def list_tables (db : Db) : Effects :=
  match db.connect with
  | .fail msg => { ret := .raised (.connErr msg), log := [], events := [] }
  | .ok =>
    match db.fetch with
    | .pgErr msg =>
      { ret := .raised (.pgExc msg), log := [],
        events := [.openConn, .fetchSQL LIST_TABLES_SQL, .closeConn] }
    | .sysErr msg =>
      { ret := .raised (.otherExc msg), log := [],
        events := [.openConn, .fetchSQL LIST_TABLES_SQL, .closeConn] }
    | .ok rows =>
      match lookupTableNames rows with
      | none =>
        { ret := .raised (.otherExc "KeyError: table_name".data), log := [],
          events := [.openConn, .fetchSQL LIST_TABLES_SQL, .closeConn] }
      | some tables =>
        { ret := .strRet ("Tablas encontradas en Pagila: ".data
            ++ pyJoin ", ".data tables),
          log := [],
          events := [.openConn, .fetchSQL LIST_TABLES_SQL, .closeConn] }

/-- A row fetched by the customer-directory query: name columns and the
(possibly NULL) aggregated spend, as the decimal value the driver delivers. -/
structure CreativeRow where
  first_name : List Char
  last_name : List Char
  total_spent : Option ℚ
  deriving DecidableEq

/-- Fetch outcome for the customer-directory query. -/
inductive CreativeFetch
  | ok (rows : List CreativeRow)
  | pgErr (msg : List Char)
  | sysErr (msg : List Char)
  deriving DecidableEq

/-- Database oracle for `list_creative_customers`. -/
structure CreativeDb where
  connect : ConnectOutcome
  fetch : CreativeFetch
  deriving DecidableEq

/-- Python `r[\x27total_spent\x27] or 0`: a NULL (and a zero) spend becomes 0. -/
def spentOf (total_spent : Option ℚ) : ℚ :=
  total_spent.getD 0

/-- The tier indicator of source line 113: crown strictly above 150, gem
strictly above 100, else the base avatar. -/
def avatarOf (spent : ℚ) : List Char :=
  if spent > 150 then "👑".data else if spent > 100 then "💎".data else "👤".data

/-- Round to an integer, ties to even (the rounding of Python `format`). -/
def roundHalfEven (x : ℚ) : ℤ :=
  if x - ⌊x⌋ > 1/2 then ⌊x⌋ + 1
  else if x - ⌊x⌋ < 1/2 then ⌊x⌋
  else if ⌊x⌋ % 2 = 0 then ⌊x⌋ else ⌊x⌋ + 1

/-- Render a nonnegative cent count as a two-decimal amount. -/
def centsFmt (n : ℤ) : List Char :=
  (Nat.repr (n.toNat / 100)).data ++ ".".data
    ++ (if n.toNat % 100 < 10 then "0".data else [])
    ++ (Nat.repr (n.toNat % 100)).data

/-- Embedding of Python `f"{spent:.2f}"` for the decimal spend value. -/
def fmt2 (x : ℚ) : List Char :=
  if x < 0 then '-' :: centsFmt (roundHalfEven (-x * 100))
  else centsFmt (roundHalfEven (x * 100))

/-- The fixed query of `list_creative_customers` (source lines 104-108). -/
def CREATIVE_SQL : List Char :=
  "\n        SELECT c.first_name, c.last_name, \n               (SELECT SUM(amount) FROM payment p WHERE p.customer_id = c.customer_id) as total_spent\n        FROM customer c LIMIT 10;\n        ".data

/-- The fixed table header of the directory report (source line 110). -/
def CREATIVE_HEADER : List Char :=
  "### 👥 Directorio con Avatares\n| Avatar | Nombre | Nivel |\n| :--- | :--- | :--- |\n".data

/-- One data row of the directory report (source lines 111-114). -/
def creativeLine (r : CreativeRow) : List Char :=
  "| ".data ++ avatarOf (spentOf r.total_spent) ++ " | ".data
    ++ r.first_name ++ " ".data ++ r.last_name ++ " | $".data
    ++ fmt2 (spentOf r.total_spent) ++ " |\n".data

/-- Embedding of `list_creative_customers()` (source lines 99-117): fixed
query, bespoke per-row rendering, bare `try`/`finally`, so fetch failures
propagate after the connection is closed. -/
def list_creative_customers (db : CreativeDb) : Effects :=
  match db.connect with
  | .fail msg => { ret := .raised (.connErr msg), log := [], events := [] }
  | .ok =>
    match db.fetch with
    | .pgErr msg =>
      { ret := .raised (.pgExc msg), log := [],
        events := [.openConn, .fetchSQL CREATIVE_SQL, .closeConn] }
    | .sysErr msg =>
      { ret := .raised (.otherExc msg), log := [],
        events := [.openConn, .fetchSQL CREATIVE_SQL, .closeConn] }
    | .ok rows =>
      { ret := .strRet (CREATIVE_HEADER ++ (rows.map creativeLine).flatten),
        log := [],
        events := [.openConn, .fetchSQL CREATIVE_SQL, .closeConn] }

/-- Fetch outcome for the category-analysis query: the category names. -/
inductive AdvisorFetch
  | ok (names : List (List Char))
  | pgErr (msg : List Char)
  | sysErr (msg : List Char)
  deriving DecidableEq

/-- Database oracle for `business_advisor_agent`. -/
structure AdvisorDb where
  connect : ConnectOutcome
  fetch : AdvisorFetch
  deriving DecidableEq

/-- The fixed query of `business_advisor_agent` (source lines 124-133). -/
def ADVISOR_SQL : List Char :=
  "\n        SELECT c.name, COUNT(r.rental_id) as total_rentals\n        FROM category c\n        JOIN film_category fc ON c.category_id = fc.category_id\n        JOIN inventory i ON fc.film_id = i.film_id\n        JOIN rental r ON i.inventory_id = r.inventory_id\n        GROUP BY c.name\n        ORDER BY total_rentals ASC\n        LIMIT 3;\n        ".data

/-- Embedding of `business_advisor_agent()` (source lines 119-142): fixed
query naming the three lowest-rental categories; bare `try`/`finally`. -/
def business_advisor_agent (db : AdvisorDb) : Effects :=
  match db.connect with
  | .fail msg => { ret := .raised (.connErr msg), log := [], events := [] }
  | .ok =>
    match db.fetch with
    | .pgErr msg =>
      { ret := .raised (.pgExc msg), log := [],
        events := [.openConn, .fetchSQL ADVISOR_SQL, .closeConn] }
    | .sysErr msg =>
      { ret := .raised (.otherExc msg), log := [],
        events := [.openConn, .fetchSQL ADVISOR_SQL, .closeConn] }
    | .ok names =>
      { ret := .strRet ("🤖 **Agente Analista Informa:**\n".data
          ++ "He detectado que las categorías ".data ++ pyJoin ", ".data names
          ++ " tienen muy poco movimiento.\n".data
          ++ "💡 **Sugerencia:** Deberíamos implementar una promoción 2x1 en estas categorías este fin de semana para liberar inventario.".data),
        log := [],
        events := [.openConn, .fetchSQL ADVISOR_SQL, .closeConn] }

/-- The security-error string returned for each gate rejection. -/
def securityMessage : ValidationOutcome → List Char
  | .allowed => []
  | .rejectedNotSelect => SEC_NOT_SELECT
  | .rejectedForbidden palabra => SEC_FORBIDDEN palabra
  | .rejectedMulti => SEC_MULTI

lemma palabras_nonempty_nonspace :
    ∀ w ∈ PALABRAS_PROHIBIDAS, w ≠ [] ∧ ∀ c ∈ w, isPySpace c = false := by
  decide

lemma infix_dropWhile_of_nonspace {p : Char → Bool} {w : List Char}
    (hw : w ≠ []) (hc : ∀ c ∈ w, p c = false) :
    ∀ {l : List Char}, w <:+: l → w <:+: l.dropWhile p := by
  intro l
  induction l with
  | nil =>
    intro h
    exact absurd (List.infix_nil.mp h) hw
  | cons a t ih =>
    intro h
    rw [List.dropWhile_cons]
    by_cases hpa : p a = true
    · rw [if_pos hpa]
      rcases List.infix_cons_iff.mp h with hpre | hinf
      · cases w with
        | nil => exact absurd rfl hw
        | cons b w' =>
          have hba : b = a := (List.cons_prefix_cons.mp hpre).1
          have hfb : p b = false := hc b (by simp)
          rw [hba, hpa] at hfb
          cases hfb
      · exact ih hinf
    · rw [if_neg hpa]
      exact h

lemma infix_pyStrip_of {w l : List Char} (hw : w ≠ [])
    (hc : ∀ c ∈ w, isPySpace c = false) (h : w <:+: l) : w <:+: pyStrip l := by
  have h1 : w <:+: l.dropWhile isPySpace := infix_dropWhile_of_nonspace hw hc h
  have h2 : w.reverse <:+: (l.dropWhile isPySpace).reverse :=
    List.reverse_infix.mpr h1
  have hrw : w.reverse ≠ [] := by simpa using hw
  have hrc : ∀ c ∈ w.reverse, isPySpace c = false := by
    intro c hcm
    exact hc c (List.mem_reverse.mp hcm)
  have h3 : w.reverse <:+: (l.dropWhile isPySpace).reverse.dropWhile isPySpace :=
    infix_dropWhile_of_nonspace hrw hrc h2
  have h4 := List.reverse_infix.mpr h3
  simpa [pyStrip] using h4

lemma pyStrip_infix_self (l : List Char) : pyStrip l <:+: l := by
  have h1 : (l.dropWhile isPySpace).reverse.dropWhile isPySpace
      <:+ (l.dropWhile isPySpace).reverse := List.dropWhile_suffix _
  have h2 := List.reverse_prefix.mpr h1
  rw [List.reverse_reverse] at h2
  have h3 : pyStrip l <+: l.dropWhile isPySpace := by
    simpa [pyStrip] using h2
  exact List.IsInfix.trans (List.IsPrefix.isInfix h3)
    (List.IsSuffix.isInfix (List.dropWhile_suffix _))

lemma infix_of_infix_pyStrip {w l : List Char} (h : w <:+: pyStrip l) :
    w <:+: l :=
  List.IsInfix.trans h (pyStrip_infix_self l)

/-- C1: every input whose uppercased, trimmed form begins with SELECT and
that contains (case-insensitively, i.e. in its uppercased form) some
forbidden word as a substring — identifiers and string literals included —
is rejected by the gate of `run_select_query` with a forbidden-keyword
outcome naming a forbidden word contained in the input, returning the
security-error string and logging the alert that name that word. -/
theorem C1_forbidden_word_rejected (query : List Char)
    (hsel : "SELECT".data <+: pyStrip (pyUpper query))
    (hword : ∃ w ∈ PALABRAS_PROHIBIDAS, w <:+: pyUpper query) :
    ∃ w ∈ PALABRAS_PROHIBIDAS, w <:+: pyUpper query ∧
      validate query = .rejectedForbidden w ∧
      ∀ db : Db,
        (run_select_query db query).ret = .strRet (SEC_FORBIDDEN w) ∧
        (run_select_query db query).log = [(query, MOTIVO_FORBIDDEN w)] := by
  obtain ⟨w, hwmem, hwinf⟩ := hword
  obtain ⟨hwne, hwns⟩ := palabras_nonempty_nonspace w hwmem
  have hw' : w <:+: pyStrip (pyUpper query) := infix_pyStrip_of hwne hwns hwinf
  have hsome : (PALABRAS_PROHIBIDAS.find?
      (fun palabra => decide (palabra <:+: pyStrip (pyUpper query)))).isSome := by
    rw [List.find?_isSome]
    exact ⟨w, hwmem, by simpa using hw'⟩
  obtain ⟨v, hv⟩ := Option.isSome_iff_exists.mp hsome
  have hvp : v <:+: pyStrip (pyUpper query) := by
    simpa using List.find?_some hv
  have hvmem : v ∈ PALABRAS_PROHIBIDAS := List.mem_of_find?_eq_some hv
  have hval : validate query = .rejectedForbidden v := by
    unfold validate
    rw [if_neg (not_not_intro hsel), hv]
  refine ⟨v, hvmem, infix_of_infix_pyStrip hvp, hval, fun db => ?_⟩
  simp [run_select_query, hval]

/-- C1 witness: the query `SELECT updated_at FROM film` begins with SELECT
and contains UPDATE inside an identifier, so the gate rejects it naming a
forbidden word. -/
theorem C1_witness :
    ("SELECT".data <+: pyStrip (pyUpper "SELECT updated_at FROM film".data)) ∧
    (∃ w ∈ PALABRAS_PROHIBIDAS,
        w <:+: pyUpper "SELECT updated_at FROM film".data) ∧
    ∃ w ∈ PALABRAS_PROHIBIDAS,
      w <:+: pyUpper "SELECT updated_at FROM film".data ∧
      validate "SELECT updated_at FROM film".data = .rejectedForbidden w ∧
      ∀ db : Db,
        (run_select_query db "SELECT updated_at FROM film".data).ret
            = .strRet (SEC_FORBIDDEN w) ∧
        (run_select_query db "SELECT updated_at FROM film".data).log
            = [("SELECT updated_at FROM film".data, MOTIVO_FORBIDDEN w)] :=
  ⟨by decide, by decide,
    C1_forbidden_word_rejected "SELECT updated_at FROM film".data
      (by decide) (by decide)⟩

/-- C2: every input whose uppercased, trimmed form does not begin with
SELECT — the empty string included — is rejected by the gate with the
not-SELECT outcome, returns the corresponding security-error string, logs
one alert, and opens no connection. -/
theorem C2_not_select_rejected (query : List Char)
    (h : ¬ ("SELECT".data <+: pyStrip (pyUpper query))) :
    validate query = .rejectedNotSelect ∧
    ∀ db : Db,
      (run_select_query db query).ret = .strRet SEC_NOT_SELECT ∧
      (run_select_query db query).log = [(query, MOTIVO_NOT_SELECT)] ∧
      (run_select_query db query).events = [] := by
  have hval : validate query = .rejectedNotSelect := by
    unfold validate
    rw [if_pos h]
  exact ⟨hval, fun db => by simp [run_select_query, hval]⟩

/-- C2 witness: the empty string does not begin with SELECT and is rejected
with the not-SELECT security error. -/
theorem C2_witness :
    (¬ ("SELECT".data <+: pyStrip (pyUpper []))) ∧
    validate [] = .rejectedNotSelect ∧
    ∀ db : Db,
      (run_select_query db []).ret = .strRet SEC_NOT_SELECT ∧
      (run_select_query db []).log = [(([] : List Char), MOTIVO_NOT_SELECT)] ∧
      (run_select_query db []).events = [] :=
  ⟨by decide, C2_not_select_rejected [] (by decide)⟩

/-- C3: for a SELECT-prefixed input with no forbidden word, a `;` anywhere
before the final character of the whitespace-trimmed original text is
rejected as multi-statement; when no `;` stands before the final character
(so a lone trailing `;` at most), the gate allows the query and execution
reaches the database (the first event is opening the connection). -/
theorem C3_multi_statement (query : List Char)
    (hsel : "SELECT".data <+: pyStrip (pyUpper query))
    (hnw : ∀ w ∈ PALABRAS_PROHIBIDAS, ¬ w <:+: pyUpper query) :
    (';' ∈ (pyStrip query).dropLast →
      validate query = .rejectedMulti ∧
      ∀ db : Db,
        (run_select_query db query).ret = .strRet SEC_MULTI ∧
        (run_select_query db query).log = [(query, MOTIVO_MULTI)] ∧
        (run_select_query db query).events = []) ∧
    (';' ∉ (pyStrip query).dropLast →
      validate query = .allowed ∧
      ∀ db : Db, db.connect = .ok →
        (run_select_query db query).events.head? = some .openConn) := by
  have hfind : PALABRAS_PROHIBIDAS.find?
      (fun palabra => decide (palabra <:+: pyStrip (pyUpper query))) = none := by
    rw [List.find?_eq_none]
    intro w hwmem
    simpa using fun hcon => hnw w hwmem (infix_of_infix_pyStrip hcon)
  constructor
  · intro hm
    have hval : validate query = .rejectedMulti := by
      unfold validate
      rw [if_neg (not_not_intro hsel), hfind, if_pos hm]
    exact ⟨hval, fun db => by simp [run_select_query, hval]⟩
  · intro hm
    have hval : validate query = .allowed := by
      unfold validate
      rw [if_neg (not_not_intro hsel), hfind, if_neg hm]
    refine ⟨hval, fun db hconn => ?_⟩
    rcases db with ⟨c, st, f⟩
    cases c with
    | fail m => exact absurd hconn (by simp)
    | ok => cases st <;> cases f <;> simp [run_select_query, hval]

/-- C3 witness: `SELECT 1; SELECT 2` has a separator before its final
character and is rejected as multi-statement, while `SELECT 1;` has only a
trailing separator and reaches the database. -/
theorem C3_witness :
    (("SELECT".data <+: pyStrip (pyUpper "SELECT 1; SELECT 2".data)) ∧
      (∀ w ∈ PALABRAS_PROHIBIDAS, ¬ w <:+: pyUpper "SELECT 1; SELECT 2".data) ∧
      ';' ∈ (pyStrip "SELECT 1; SELECT 2".data).dropLast ∧
      validate "SELECT 1; SELECT 2".data = .rejectedMulti) ∧
    (("SELECT".data <+: pyStrip (pyUpper "SELECT 1;".data)) ∧
      (∀ w ∈ PALABRAS_PROHIBIDAS, ¬ w <:+: pyUpper "SELECT 1;".data) ∧
      ';' ∉ (pyStrip "SELECT 1;".data).dropLast ∧
      validate "SELECT 1;".data = .allowed) :=
  ⟨⟨by decide, by decide, by decide,
      ((C3_multi_statement "SELECT 1; SELECT 2".data (by decide) (by decide)).1
        (by decide)).1⟩,
    ⟨by decide, by decide, by decide,
      ((C3_multi_statement "SELECT 1;".data (by decide) (by decide)).2
        (by decide)).1⟩⟩

/-- C4: the caller's query reaches the database only when all three gate
checks pass: on any rejection the call returns the branch's security-error
string with no connection event at all, and on the allowed path the only
query ever fetched is the original raw text, unmodified. -/
theorem C4_gate_guards_database (db : Db) (query : List Char) :
    (validate query ≠ .allowed →
      (run_select_query db query).events = [] ∧
      (run_select_query db query).ret
          = .strRet (securityMessage (validate query))) ∧
    (∀ s, Event.fetchSQL s ∈ (run_select_query db query).events →
      validate query = .allowed ∧ s = query) := by
  rcases db with ⟨c, st, f⟩
  constructor
  · intro hne
    cases hv : validate query with
    | allowed => exact absurd hv hne
    | rejectedNotSelect => simp [run_select_query, hv, securityMessage]
    | rejectedForbidden p => simp [run_select_query, hv, securityMessage]
    | rejectedMulti => simp [run_select_query, hv, securityMessage]
  · intro s hs
    cases hv : validate query with
    | allowed =>
      refine ⟨rfl, ?_⟩
      cases c <;> cases st <;> cases f <;>
          simp [run_select_query, hv] at hs <;> exact hs
    | rejectedNotSelect => simp [run_select_query, hv] at hs
    | rejectedForbidden p => simp [run_select_query, hv] at hs
    | rejectedMulti => simp [run_select_query, hv] at hs

/-- C4 witness: a rejected query (`DELETE FROM film`, not SELECT-prefixed)
produces no connection event and returns its security-error string; on an
allowed query any fetched text equals the raw query. -/
theorem C4_witness :
    ((run_select_query { connect := .ok, setReadOnly := .ok, fetch := .ok [] }
        "DELETE FROM film".data).events = [] ∧
      (run_select_query { connect := .ok, setReadOnly := .ok, fetch := .ok [] }
        "DELETE FROM film".data).ret
          = .strRet (securityMessage (validate "DELETE FROM film".data))) ∧
    (∀ s, Event.fetchSQL s ∈
        (run_select_query { connect := .ok, setReadOnly := .ok, fetch := .ok [] }
          "SELECT 1".data).events →
      validate "SELECT 1".data = .allowed ∧ s = "SELECT 1".data) :=
  ⟨(C4_gate_guards_database
      { connect := .ok, setReadOnly := .ok, fetch := .ok [] }
      "DELETE FROM film".data).1 (by decide),
    (C4_gate_guards_database
      { connect := .ok, setReadOnly := .ok, fetch := .ok [] }
      "SELECT 1".data).2⟩

/-- C5: whenever the caller's query is fetched at all, the event trace of
`run_select_query` is exactly open, the read-only session directive, the
fetch of the raw query, close — so the query never runs on a connection
that was not first forced read-only. -/
theorem C5_read_only_before_query (db : Db) (query s : List Char)
    (h : Event.fetchSQL s ∈ (run_select_query db query).events) :
    (run_select_query db query).events =
      [.openConn, .execSQL READ_ONLY_SQL, .fetchSQL query, .closeConn] := by
  rcases db with ⟨c, st, f⟩
  cases hv : validate query <;> cases c <;> cases st <;> cases f <;>
    simp [run_select_query, hv] at h ⊢

/-- C5 witness: on a successful call the trace is open, read-only
directive, fetch, close, in that order. -/
theorem C5_witness :
    Event.fetchSQL "SELECT 1".data ∈
      (run_select_query { connect := .ok, setReadOnly := .ok, fetch := .ok [] }
        "SELECT 1".data).events ∧
    (run_select_query { connect := .ok, setReadOnly := .ok, fetch := .ok [] }
        "SELECT 1".data).events =
      [.openConn, .execSQL READ_ONLY_SQL, .fetchSQL "SELECT 1".data,
       .closeConn] :=
  ⟨by decide,
    C5_read_only_before_query
      { connect := .ok, setReadOnly := .ok, fetch := .ok [] }
      "SELECT 1".data "SELECT 1".data (by decide)⟩

set_option maxRecDepth 8192 in
/-- C6 counterexample: the log line the code writes for the rejected query
`DELETE FROM film` neither contains `[BLOCKED]` nor `Reason:`, so the
claimed line format `[timestamp] [BLOCKED] Reason: ... | Query: ...` does
not hold of the code (which writes `⚠️ [..] [BLOQUEADO] Motivo: ..`). -/
theorem C6_counterexample :
    (run_select_query { connect := .ok, setReadOnly := .ok, fetch := .ok [] }
        "DELETE FROM film".data).log
      = [("DELETE FROM film".data, MOTIVO_NOT_SELECT)] ∧
    ¬ ("[BLOCKED]".data <:+:
        registrar_alerta_seguridad "2025-10-12 00:00:00".data
          "DELETE FROM film".data MOTIVO_NOT_SELECT) ∧
    ¬ ("Reason:".data <:+:
        registrar_alerta_seguridad "2025-10-12 00:00:00".data
          "DELETE FROM film".data MOTIVO_NOT_SELECT) := by
  refine ⟨by decide, by decide, by decide⟩

/-- C6 amended: every validation rejection, and every database error from
the read-only directive or the fetch, appends exactly one security-log
entry; every entry carries the original caller-supplied query verbatim, and
renders as the line `⚠️ [timestamp] [BLOQUEADO] Motivo: <reason> | Query:
<query>` (Spanish labels with a warning emoji, not `[BLOCKED] Reason:`) in
which the query text appears unchanged. -/
theorem C6_alert_line (db : Db) (query ts : List Char) :
    (validate query ≠ .allowed →
      ∃ m, (run_select_query db query).log = [(query, m)]) ∧
    (∀ msg, validate query = .allowed → db.connect = .ok →
      db.setReadOnly = .pgErr msg →
      (run_select_query db query).log = [(query, MOTIVO_DB msg)]) ∧
    (∀ msg, validate query = .allowed → db.connect = .ok →
      db.setReadOnly = .ok → db.fetch = .pgErr msg →
      (run_select_query db query).log = [(query, MOTIVO_DB msg)]) ∧
    (∀ e ∈ (run_select_query db query).log,
      e.1 = query ∧
      registrar_alerta_seguridad ts e.1 e.2 =
        "⚠️ [".data ++ ts ++ "] [BLOQUEADO] Motivo: ".data ++ e.2
          ++ " | Query: ".data ++ e.1 ++ "\n".data) := by
  rcases db with ⟨c, st, f⟩
  refine ⟨?_, ?_, ?_, ?_⟩
  · intro hne
    cases hv : validate query with
    | allowed => exact absurd hv hne
    | rejectedNotSelect =>
      exact ⟨MOTIVO_NOT_SELECT, by simp [run_select_query, hv]⟩
    | rejectedForbidden p =>
      exact ⟨MOTIVO_FORBIDDEN p, by simp [run_select_query, hv]⟩
    | rejectedMulti =>
      exact ⟨MOTIVO_MULTI, by simp [run_select_query, hv]⟩
  · intro msg hv hc hst
    subst hc
    subst hst
    simp [run_select_query, hv]
  · intro msg hv hc hst hf
    subst hc
    subst hst
    subst hf
    simp [run_select_query, hv]
  · intro e he
    refine ⟨?_, rfl⟩
    cases hv : validate query <;> cases c <;> cases st <;> cases f <;>
      simp [run_select_query, hv] at he <;> simp [he]

/-- C6 witness: a concrete database error on the fetch of an allowed query
logs exactly the one entry with the original query text. -/
theorem C6_witness :
    validate "SELECT 1".data = .allowed ∧
    (run_select_query
        { connect := .ok, setReadOnly := .ok, fetch := .pgErr "boom".data }
        "SELECT 1".data).log
      = [("SELECT 1".data, MOTIVO_DB "boom".data)] :=
  ⟨by decide,
    (C6_alert_line
        { connect := .ok, setReadOnly := .ok, fetch := .pgErr "boom".data }
        "SELECT 1".data "2025-10-12 00:00:00".data).2.2.1
      "boom".data (by decide) rfl rfl rfl⟩

/-- C7 counterexample: `list_tables` has no `except` clause, so a database
error raised by its fetch propagates out of the operation as a raised
exception instead of being returned as a descriptive string. -/
theorem C7_counterexample :
    (list_tables
        { connect := .ok, setReadOnly := .ok,
          fetch := .pgErr "relation does not exist".data }).ret
      = .raised (.pgExc "relation does not exist".data) := rfl

/-- C7 amended: `run_select_query` returns a descriptive string for every
failure class once validation has run — the only exception it propagates is
a failure to open the connection — while the three fixed-query operations
(`list_tables`, `list_creative_customers`, `business_advisor_agent`)
propagate both connection failures and any error raised by their fetch. -/
theorem C7_errors_as_text :
    (∀ (db : Db) (query : List Char) (e : PyExc),
      (run_select_query db query).ret = .raised e →
      ∃ m, db.connect = .fail m ∧ e = .connErr m) ∧
    (∀ (db : Db) (m : List Char), db.connect = .fail m →
      (list_tables db).ret = .raised (.connErr m)) ∧
    (∀ (db : Db) (m : List Char), db.connect = .ok → db.fetch = .pgErr m →
      (list_tables db).ret = .raised (.pgExc m)) ∧
    (∀ (db : CreativeDb) (m : List Char), db.connect = .ok →
      db.fetch = .pgErr m →
      (list_creative_customers db).ret = .raised (.pgExc m)) ∧
    (∀ (db : AdvisorDb) (m : List Char), db.connect = .ok →
      db.fetch = .pgErr m →
      (business_advisor_agent db).ret = .raised (.pgExc m)) := by
  refine ⟨?_, ?_, ?_, ?_, ?_⟩
  · rintro ⟨c, st, f⟩ query e h
    cases hv : validate query <;> cases c <;> cases st <;> cases f <;>
        simp [run_select_query, hv] at h <;>
      exact ⟨_, rfl, h.symm⟩
  · rintro ⟨c, st, f⟩ m hc
    subst hc
    rfl
  · rintro ⟨c, st, f⟩ m hc hf
    subst hc
    subst hf
    rfl
  · rintro ⟨c, f⟩ m hc hf
    subst hc
    subst hf
    rfl
  · rintro ⟨c, f⟩ m hc hf
    subst hc
    subst hf
    rfl

/-- C7 witness: a failed connection attempt makes `run_select_query` itself
raise a connection error, and the fixed-query operations raise their fetch
errors. -/
theorem C7_witness :
    (∃ m, ({ connect := .fail "refused".data, setReadOnly := .ok, fetch := .ok [] } : Db).connect = .fail m ∧
        PyExc.connErr "refused".data = .connErr m) ∧
    (list_tables
        { connect := .fail "refused".data, setReadOnly := .ok,
          fetch := .ok [] }).ret = .raised (.connErr "refused".data) ∧
    (list_creative_customers
        { connect := .ok, fetch := .pgErr "boom".data }).ret
      = .raised (.pgExc "boom".data) ∧
    (business_advisor_agent
        { connect := .ok, fetch := .pgErr "boom".data }).ret
      = .raised (.pgExc "boom".data) :=
  ⟨C7_errors_as_text.1
      { connect := .fail "refused".data, setReadOnly := .ok, fetch := .ok [] }
      "SELECT 1".data (.connErr "refused".data) (by decide),
    C7_errors_as_text.2.1
      { connect := .fail "refused".data, setReadOnly := .ok, fetch := .ok [] }
      "refused".data rfl,
    C7_errors_as_text.2.2.2.1
      { connect := .ok, fetch := .pgErr "boom".data } "boom".data rfl rfl,
    C7_errors_as_text.2.2.2.2
      { connect := .ok, fetch := .pgErr "boom".data } "boom".data rfl rfl⟩

/-- C8: in every exposed operation, once the connection was successfully
opened (an open event is in the trace) it is closed exactly once, and the
close is the last connection event before the operation finishes. -/
theorem C8_connection_closed_once :
    (∀ (db : Db) (query : List Char),
      Event.openConn ∈ (run_select_query db query).events →
      (run_select_query db query).events.count Event.closeConn = 1 ∧
      (run_select_query db query).events.getLast? = some Event.closeConn) ∧
    (∀ db : Db, Event.openConn ∈ (list_tables db).events →
      (list_tables db).events.count Event.closeConn = 1 ∧
      (list_tables db).events.getLast? = some Event.closeConn) ∧
    (∀ db : CreativeDb, Event.openConn ∈ (list_creative_customers db).events →
      (list_creative_customers db).events.count Event.closeConn = 1 ∧
      (list_creative_customers db).events.getLast? = some Event.closeConn) ∧
    (∀ db : AdvisorDb, Event.openConn ∈ (business_advisor_agent db).events →
      (business_advisor_agent db).events.count Event.closeConn = 1 ∧
      (business_advisor_agent db).events.getLast? = some Event.closeConn) := by
  refine ⟨?_, ?_, ?_, ?_⟩
  · rintro ⟨c, st, f⟩ query h
    cases hv : validate query <;> cases c <;> cases st <;> cases f <;>
      simp_all [run_select_query, hv, List.count_cons]
  · rintro ⟨c, st, f⟩ h
    cases c with
    | fail m => simp [list_tables] at h
    | ok =>
      cases f with
      | pgErr m => simp [list_tables, List.count_cons]
      | sysErr m => simp [list_tables, List.count_cons]
      | ok rows =>
        cases hmap : lookupTableNames rows with
        | none => constructor <;> simp [list_tables, hmap, List.count_cons]
        | some tables =>
          constructor <;> simp [list_tables, hmap, List.count_cons]
  · rintro ⟨c, f⟩ h
    cases c with
    | fail m => simp [list_creative_customers] at h
    | ok =>
      cases f <;> simp [list_creative_customers, List.count_cons]
  · rintro ⟨c, f⟩ h
    cases c with
    | fail m => simp [business_advisor_agent] at h
    | ok =>
      cases f <;> simp [business_advisor_agent, List.count_cons]

/-- C8 witness: on a concrete erroring call of `run_select_query` the
connection is opened, then closed exactly once, with close as the last
event. -/
theorem C8_witness :
    Event.openConn ∈
      (run_select_query
        { connect := .ok, setReadOnly := .ok, fetch := .pgErr "boom".data }
        "SELECT 1".data).events ∧
    (run_select_query
        { connect := .ok, setReadOnly := .ok, fetch := .pgErr "boom".data }
        "SELECT 1".data).events.count Event.closeConn = 1 ∧
    (run_select_query
        { connect := .ok, setReadOnly := .ok, fetch := .pgErr "boom".data }
        "SELECT 1".data).events.getLast? = some Event.closeConn :=
  ⟨by decide,
    C8_connection_closed_once.1
      { connect := .ok, setReadOnly := .ok, fetch := .pgErr "boom".data }
      "SELECT 1".data (by decide)⟩

/-- C9: the tier indicator of `list_creative_customers` depends only on the
total spend and its fixed thresholds: strictly above 150 the crown tier,
otherwise strictly above 100 the gem tier, otherwise the base tier; a NULL
spend counts as 0 and gets the base tier; and each rendered row derives its
indicator exactly this way from its spend. -/
theorem C9_tier_thresholds :
    (∀ s : ℚ, 150 < s → avatarOf s = "👑".data) ∧
    (∀ s : ℚ, s ≤ 150 → 100 < s → avatarOf s = "💎".data) ∧
    (∀ s : ℚ, s ≤ 100 → avatarOf s = "👤".data) ∧
    spentOf none = 0 ∧
    avatarOf (spentOf none) = "👤".data ∧
    (∀ r : CreativeRow, creativeLine r =
      "| ".data ++ avatarOf (spentOf r.total_spent) ++ " | ".data
        ++ r.first_name ++ " ".data ++ r.last_name ++ " | $".data
        ++ fmt2 (spentOf r.total_spent) ++ " |\n".data) := by
  refine ⟨?_, ?_, ?_, rfl, rfl, fun r => rfl⟩
  · intro s h
    unfold avatarOf
    rw [if_pos h]
  · intro s h1 h2
    unfold avatarOf
    rw [if_neg (not_lt.mpr h1), if_pos h2]
  · intro s h
    unfold avatarOf
    rw [if_neg (not_lt.mpr (h.trans (by norm_num))),
      if_neg (not_lt.mpr h)]

/-- C9 witness: spend 200 gets the crown, 120 the gem, 0 and NULL the base
avatar. -/
theorem C9_witness :
    avatarOf 200 = "👑".data ∧ avatarOf 120 = "💎".data ∧
    avatarOf 0 = "👤".data ∧ spentOf none = 0 ∧
    avatarOf (spentOf none) = "👤".data :=
  ⟨C9_tier_thresholds.1 200 (by norm_num),
    C9_tier_thresholds.2.1 120 (by norm_num) (by norm_num),
    C9_tier_thresholds.2.2.1 0 (by norm_num),
    C9_tier_thresholds.2.2.2.1,
    C9_tier_thresholds.2.2.2.2.1⟩

set_option maxRecDepth 32768 in
/-- C10: the fixed customer-directory query asks the database for at most
the first 10 customer rows (`LIMIT 10` is part of its text), the report
renders exactly one data row per fetched row, and so a fetch honouring the
limit (at most 10 rows) yields at most 10 data rows. -/
theorem C10_at_most_ten_rows :
    ("LIMIT 10".data <:+: CREATIVE_SQL) ∧
    (∀ (db : CreativeDb) (rows : List CreativeRow),
      db.connect = .ok → db.fetch = .ok rows →
      (list_creative_customers db).ret =
        .strRet (CREATIVE_HEADER ++ (rows.map creativeLine).flatten) ∧
      (rows.map creativeLine).length = rows.length ∧
      (rows.length ≤ 10 → (rows.map creativeLine).length ≤ 10)) := by
  refine ⟨by decide, ?_⟩
  rintro ⟨c, f⟩ rows hc hf
  subst hc
  subst hf
  exact ⟨rfl, List.length_map rows creativeLine,
    fun h => by simpa [List.length_map] using h⟩

/-- C10 witness: a one-customer fetch renders the header plus exactly one
data row, within the ten-row bound. -/
theorem C10_witness :
    (list_creative_customers
        { connect := .ok,
          fetch := .ok [{ first_name := "Ana".data, last_name := "Lopez".data, total_spent := some 200 }] }).ret =
      .strRet (CREATIVE_HEADER ++
        ([{ first_name := "Ana".data, last_name := "Lopez".data, total_spent := some 200 }].map creativeLine).flatten) ∧
    ([({ first_name := "Ana".data, last_name := "Lopez".data, total_spent := some 200 } : CreativeRow)].map creativeLine).length =
      [({ first_name := "Ana".data, last_name := "Lopez".data, total_spent := some 200 } : CreativeRow)].length ∧
    ([({ first_name := "Ana".data, last_name := "Lopez".data, total_spent := some 200 } : CreativeRow)].length ≤ 10 →
      ([({ first_name := "Ana".data, last_name := "Lopez".data, total_spent := some 200 } : CreativeRow)].map creativeLine).length ≤ 10) :=
  C10_at_most_ten_rows.2
    { connect := .ok,
      fetch := .ok [{ first_name := "Ana".data, last_name := "Lopez".data, total_spent := some 200 }] }
    [{ first_name := "Ana".data, last_name := "Lopez".data, total_spent := some 200 }]
    rfl rfl

end Pagila
